import Mathlib

/-!
# Verification of the notify-rs desktop-notification client

Shallow embedding of the Rust sources (`src/notification.rs`, `src/xdg.rs`,
`src/error.rs`) of the notify-rs repository into Lean 4, together with
theorems settling the frozen claims about the specification.

Conventions of the embedding:
* Rust `u32` / `i32` values are modelled as `Nat` / `Int`; none of the
  operations under verification perform arithmetic that can overflow, so no
  modular reduction is needed.
* Fallible Rust code (`Result<T>`) is modelled as `Except DbusError T`; a Rust
  panic (`unwrap`, out-of-bounds indexing) is modelled as `Except RustPanic T`.
* The D-Bus connection is an external black box: each call that talks to the
  bus takes the bus's observable behaviour (the reply, or a transport failure)
  as an explicit oracle argument.
* The modules `hints.rs`, `urgency.rs` and `timeout.rs` of the repository are
  not part of the provided sources; the types they declare (`Hint`, `Urgency`,
  `Timeout` and their conversions) are modelled from the spec, and each such
  definition is marked `Modelled from the spec:` in its doc comment.
-/

namespace NotifyRs

/-- Modelled from the spec: `Urgency` enum (`urgency.rs` is absent from the
sources). Three levels: Low | Normal | Critical. -/
inductive Urgency where
  | low
  | normal
  | critical
  deriving DecidableEq, Repr

/-- Modelled from the spec: `Timeout` enum (`timeout.rs` is absent from the
sources). Three-way: server default, never expire, or an explicit millisecond
count (an `i32` on the wire, negative values unvalidated). -/
inductive Timeout where
  | default
  | never
  | milliseconds (ms : Int)
  deriving DecidableEq, Repr

/-- Modelled from the spec: the wire representation of `Timeout` is a signed
32-bit integer, `-1` = default, `0` = never, `N` = milliseconds
(`impl From<Timeout> for i32` lives in the absent `timeout.rs`). -/
def Timeout.toI32 : Timeout → Int
  | .default => -1
  | .never => 0
  | .milliseconds ms => ms

/-- Modelled from the spec: decoded pixel buffer carried by
`Hint::ImageData` (width, height, row-stride, has-alpha, bits-per-sample,
channels, raw byte buffer); the image module is an external collaborator. -/
structure Image where
  width : Int
  height : Int
  rowstride : Int
  alpha : Bool
  bitsPerSample : Int
  channels : Int
  data : List Nat
  deriving DecidableEq, Repr

/-- Modelled from the spec: the closed `Hint` sum type (`hints.rs` is absent
from the sources). One variant per typed notification hint, plus
`custom(name, value)` for unrecognized wire keys. -/
inductive Hint where
  | actionIcons (b : Bool)
  | category (s : String)
  | desktopEntry (s : String)
  | imageData (img : Image)
  | imagePath (s : String)
  | resident (b : Bool)
  | soundFile (s : String)
  | soundName (s : String)
  | suppressSound (b : Bool)
  | transient (b : Bool)
  | x (i : Int)
  | y (i : Int)
  | urgency (u : Urgency)
  | custom (name value : String)
  deriving DecidableEq, Repr

/-- Modelled from the spec: a hint's identity is its variant tag ("a hint is
keyed by its variant identity"); `Hint`'s `Eq`/`Hash` in the absent `hints.rs`
compare only this tag. -/
inductive HintTag where
  | actionIcons
  | category
  | desktopEntry
  | imageData
  | imagePath
  | resident
  | soundFile
  | soundName
  | suppressSound
  | transient
  | x
  | y
  | urgency
  | custom
  deriving DecidableEq, Repr

/-- The variant tag of a hint (the key of the hints set). -/
def Hint.tag : Hint → HintTag
  | .actionIcons _ => .actionIcons
  | .category _ => .category
  | .desktopEntry _ => .desktopEntry
  | .imageData _ => .imageData
  | .imagePath _ => .imagePath
  | .resident _ => .resident
  | .soundFile _ => .soundFile
  | .soundName _ => .soundName
  | .suppressSound _ => .suppressSound
  | .transient _ => .transient
  | .x _ => .x
  | .y _ => .y
  | .urgency _ => .urgency
  | .custom _ _ => .custom

/-- Rust `std::collections::HashSet::insert` on a set of `Hint`s whose equality is
the variant-tag equality above, with the set represented as a duplicate-free
list in insertion order. Rust's `HashSet::insert` does **not** replace: "If
the set did have this value present, `false` is returned, and the set is not
modified: original value is not replaced". -/
def hashSetInsert (s : List Hint) (h : Hint) : List Hint :=
  if s.any (fun g => g.tag = h.tag) then s else s ++ [h]

/-- Rust `Notification` (src/notification.rs, linux configuration): appname,
summary, optional subtitle, body, icon, the hint set, the flat alternating
action list, the timeout, and the optional pre-assigned id. -/
structure Notification where
  appname : String
  summary : String
  subtitle : Option String
  body : String
  icon : String
  hints : List Hint
  actions : List String
  timeout : Timeout
  id : Option Nat
  deriving DecidableEq, Repr

/-- Rust `Default for Notification` (src/notification.rs lines 421-433) with the
appname — produced by `exe_name()`, an external lookup — passed explicitly:
all strings empty, no hints, no actions, `Timeout::Default`, no id. -/
def Notification.defaultWith (appname : String) : Notification :=
  { appname := appname
    summary := ""
    subtitle := none
    body := ""
    icon := ""
    hints := []
    actions := []
    timeout := Timeout.default
    id := none }

/-- Rust `Notification::summary` (src/notification.rs line 88): overwrite the
summary field, return self. -/
def Notification.setSummary (n : Notification) (summary : String) : Notification :=
  { n with summary := summary }

/-- Rust `Notification::hint` (src/notification.rs lines 205-209): insert into the
internal hint `HashSet`. -/
def Notification.hint (n : Notification) (h : Hint) : Notification :=
  { n with hints := hashSetInsert n.hints h }

/-- Rust `Notification::action` (src/notification.rs lines 262-266): push the
identifier and the label onto the action list. -/
def Notification.action (n : Notification) (identifier label : String) : Notification :=
  { n with actions := n.actions ++ [identifier, label] }

/-- Rust `dbus::arg::messageitem::MessageItem` — the untyped wire value of the dbus
crate, restricted to the shapes this code constructs and inspects: strings,
unsigned 32-bit ints, signed 32-bit ints, bytes, booleans, variants, typed
arrays (with their signature string, e.g. `"as"`, `"a{sv}"`), and dict
entries. -/
inductive MessageItem where
  | str (s : String)
  | uint32 (n : Nat)
  | int32 (i : Int)
  | byte (b : Nat)
  | boolVal (b : Bool)
  | variant (v : MessageItem)
  | array (sig : String) (items : List MessageItem)
  | dictEntry (k v : MessageItem)
  deriving Repr

/-- Modelled from the spec: `HintMessage::wrap_hint` (in the absent
`hints.rs`) encodes one hint as its fixed wire key and a variant-wrapped
typed value, following the spec's hint wire map (booleans as wire-boolean,
coordinates as int32, urgency as byte 0/1/2, strings as wire-string,
image data as a structured tuple). -/
def wrapHint : Hint → MessageItem × MessageItem
  | .actionIcons b => (.str "action-icons", .variant (.boolVal b))
  | .category s => (.str "category", .variant (.str s))
  | .desktopEntry s => (.str "desktop-entry", .variant (.str s))
  | .imageData img =>
      (.str "image-data",
       .variant (.array "(iiibiiay)"
         [.int32 img.width, .int32 img.height, .int32 img.rowstride,
          .boolVal img.alpha, .int32 img.bitsPerSample, .int32 img.channels,
          .array "ay" (img.data.map MessageItem.byte)]))
  | .imagePath s => (.str "image-path", .variant (.str s))
  | .resident b => (.str "resident", .variant (.boolVal b))
  | .soundFile s => (.str "sound-file", .variant (.str s))
  | .soundName s => (.str "sound-name", .variant (.str s))
  | .suppressSound b => (.str "suppress-sound", .variant (.boolVal b))
  | .transient b => (.str "transient", .variant (.boolVal b))
  | .x i => (.str "x", .variant (.int32 i))
  | .y i => (.str "y", .variant (.int32 i))
  | .urgency u =>
      (.str "urgency",
       .variant (.byte (match u with | .low => 0 | .normal => 1 | .critical => 2)))
  | .custom name value => (.str name, .variant (.str value))

/-- Rust `Notification::pack_hints` (src/notification.rs lines 288-302): a
non-empty hint set becomes an `a{sv}` dict of wrapped hints; an empty set
becomes the empty `a{sv}` array. -/
def Notification.pack_hints (n : Notification) : MessageItem :=
  if n.hints ≠ [] then
    .array "a{sv}" (n.hints.map fun h => MessageItem.dictEntry (wrapHint h).1 (wrapHint h).2)
  else
    .array "a{sv}" []

/-- Rust `Notification::pack_actions` (src/notification.rs lines 305-317): the
action strings as an `as` array; empty list becomes the empty `as` array. -/
def Notification.pack_actions (n : Notification) : MessageItem :=
  .array "as" (n.actions.map MessageItem.str)

/-- The observable behaviour of one synchronous request/reply exchange on the
bus: either the reply message's item list, or a connection-level failure
(sending failed, or the 2000 ms reply timeout elapsed). -/
inductive CallOutcome where
  | reply (items : List MessageItem)
  | sendError
  deriving Repr

/-- Rust `ErrorKind::Dbus` — the only error the message-builder operations can
surface (src/error.rs): a connection-level dbus failure. -/
inductive DbusError where
  | dbus
  deriving DecidableEq, Repr

/-- A Rust panic (an `unwrap` of `Err`/`None`, or out-of-bounds indexing). -/
inductive RustPanic where
  | panic
  deriving DecidableEq, Repr

/-- The argument list appended to the `Notify` method call by
`Notification::_show` (src/notification.rs lines 388-396): appname, id to
replace, icon, summary, body, packed actions, packed hints, timeout as i32. -/
def Notification.notifyArgs (n : Notification) (id : Nat) : List MessageItem :=
  [.str n.appname,
   .uint32 id,
   .str n.icon,
   .str n.summary,
   .str n.body,
   n.pack_actions,
   n.pack_hints,
   .int32 n.timeout.toI32]

/-- Reply parsing inside `Notification::_show` (src/notification.rs lines
400-403): the first reply item, when it is a `UInt32`, is the assigned id;
any other shape (including an empty reply) yields id `0`. -/
def parseNotifyReply (items : List MessageItem) : Nat :=
  match items.get? 0 with
  | some (.uint32 id) => id
  | _ => 0

/-- Rust `Notification::_show` (src/notification.rs lines 385-404): send the
`Notify` call and block for the reply; a connection-level failure is
propagated (`?`), any reply parses without error via `parseNotifyReply`. -/
def Notification.showCall (n : Notification) (id : Nat) (o : CallOutcome) :
    Except DbusError Nat :=
  match n, id, o with
  | _, _, .sendError => .error .dbus
  | _, _, .reply items => .ok (parseNotifyReply items)

/-- Rust `NotificationHandle` (src/xdg.rs lines 23-27), with the live connection —
an external resource — elided: the last-acknowledged id and the owned
notification. -/
structure NotificationHandle where
  id : Nat
  notification : Notification
  deriving Repr

/-- Rust `NotificationHandle::new` (src/xdg.rs lines 30-32). -/
def NotificationHandle.new (id : Nat) (notification : Notification) : NotificationHandle :=
  { id := id, notification := notification }

/-- Rust `NotificationHandle::id` (src/xdg.rs lines 95-97): return the stored id. -/
def NotificationHandle.getId (h : NotificationHandle) : Nat :=
  h.id

/-- Rust `Notification::show` (src/notification.rs lines 323-328): `inner_id` is
the pre-assigned id or `0`, `_show` is invoked, and its result becomes a new
handle owning a clone of the notification. -/
def Notification.show (n : Notification) (o : CallOutcome) :
    Except DbusError NotificationHandle :=
  match n.showCall (n.id.getD 0) o with
  | .error e => .error e
  | .ok id => .ok (NotificationHandle.new id n)

/-- Rust `NotificationHandle::update` (src/xdg.rs lines 90-92):
`self.id = self.notification._show(self.id, &self.connection).unwrap();` —
the re-send's result is `unwrap`ped, so a transport error panics; on success
the stored id is replaced by the reply's id. -/
def NotificationHandle.update (h : NotificationHandle) (o : CallOutcome) :
    Except RustPanic NotificationHandle :=
  match h.notification.showCall h.id o with
  | .error _ => .error .panic
  | .ok id => .ok { h with id := id }

/-- Rust `unwrap_message_string` (src/xdg.rs lines 253-258): a present `Str` item
yields its string, anything else (absent item or other type) yields `""`. -/
def unwrap_message_string (item : Option MessageItem) : String :=
  match item with
  | some (.str value) => value
  | _ => ""

/-- Rust `ServerInformation` (src/xdg.rs lines 159-168). -/
structure ServerInformation where
  name : String
  vendor : String
  version : String
  spec_version : String
  deriving DecidableEq, Repr

/-- Rust `get_server_information` (src/xdg.rs lines 143-155): send
`GetServerInformation`; a connection-level failure propagates, any reply
decodes positionally through `unwrap_message_string`. -/
def get_server_information (o : CallOutcome) : Except DbusError ServerInformation :=
  match o with
  | .sendError => .error .dbus
  | .reply items =>
      .ok { name := unwrap_message_string (items.get? 0)
            vendor := unwrap_message_string (items.get? 1)
            version := unwrap_message_string (items.get? 2)
            spec_version := unwrap_message_string (items.get? 3) }

/-- Rust `NOTIFICATION_NAMESPACE` (src/xdg.rs lines 13, 16): the well-known bus
name, selected by the `debug_namespace` cargo feature. -/
def NOTIFICATION_NAMESPACE (debugNamespace : Bool) : String :=
  if debugNamespace then "de.hoodie.Notifications" else "org.freedesktop.Notifications"

/-- Rust `NOTIFICATION_OBJECTPATH` (src/xdg.rs lines 14, 17): the object path,
selected by the `debug_namespace` cargo feature. -/
def NOTIFICATION_OBJECTPATH (debugNamespace : Bool) : String :=
  if debugNamespace then "/de/hoodie/Notifications" else "/org/freedesktop/Notifications"

/-- A signal message as seen by `wait_for_action_signal`: path, interface and
member are each optional on the wire (`message.path()` etc. return options,
mapped to `""` when absent), plus the message item list. -/
structure SignalMessage where
  path : Option String
  interface : Option String
  member : Option String
  items : List MessageItem
  deriving Repr

/-- Rust `dbus::ffidisp::ConnectionItem`, restricted to what the loop
distinguishes: a signal, or anything else (nothing pending, a method call, a
method return) — the loop body only matches `ConnectionItem::Signal`. -/
inductive ConnectionItem where
  | signal (m : SignalMessage)
  | other
  deriving Repr

/-- The `(path, interface, member)` triple computed at src/xdg.rs lines
213-217: each component defaulted to the empty string when absent. -/
def tripleOf (m : SignalMessage) : String × String × String :=
  (m.path.getD "", m.interface.getD "", m.member.getD "")

/-- Outcome of the loop body for a single connection item: keep looping,
invoke the callback with an argument and break, or panic (out-of-bounds
indexing into the item list). -/
inductive StepResult where
  | cont
  | invoke (arg : String)
  | panicOOB
  deriving DecidableEq, Repr

/-- The body of `wait_for_action_signal`'s loop for one signal message
(src/xdg.rs lines 210-241): match the hard-coded production triple; in a
recognized arm, `(&items[0], &items[1])` is evaluated unconditionally, so
fewer than two items is an out-of-bounds panic; a `(UInt32 nid, Str action)`
pair with `nid == id` invokes the callback with the action, a
`(UInt32 nid, UInt32 _)` pair with `nid == id` invokes it with `"__closed"`;
everything else falls through and the loop continues. -/
def signalStep (id : Nat) (m : SignalMessage) : StepResult :=
  if tripleOf m = ("/org/freedesktop/Notifications", "org.freedesktop.Notifications",
                   "ActionInvoked") then
    match m.items with
    | .uint32 nid :: .str action :: _ => if nid = id then .invoke action else .cont
    | _ :: _ :: _ => .cont
    | _ => .panicOOB
  else if tripleOf m = ("/org/freedesktop/Notifications", "org.freedesktop.Notifications",
                        "NotificationClosed") then
    match m.items with
    | .uint32 nid :: .uint32 _ :: _ => if nid = id then .invoke "__closed" else .cont
    | _ :: _ :: _ => .cont
    | _ => .panicOOB
  else .cont

/-- One iteration of the loop on a connection item: non-signal items are
skipped (only `ConnectionItem::Signal` is matched). -/
def itemStep (id : Nat) : ConnectionItem → StepResult
  | .signal m => signalStep id m
  | .other => .cont

/-- Result of running the wait loop over a finite prefix of the incoming
connection-item stream: the callback was invoked once with `arg` and the loop
broke (leaving `rest` unconsumed); the prefix was exhausted with no
invocation (the real loop would keep blocking); or the loop panicked. -/
inductive RunResult where
  | broke (arg : String) (rest : List ConnectionItem)
  | exhausted
  | panicked
  deriving Repr

/-- Rust `wait_for_action_signal` (src/xdg.rs lines 199-243) run over a finite
prefix of the connection-item stream: iterate `itemStep`; `invoke` calls the
one-shot callback and breaks, `cont` loops, `panicOOB` aborts. -/
def waitRun (id : Nat) : List ConnectionItem → RunResult
  | [] => .exhausted
  | it :: rest =>
      match itemStep id it with
      | .cont => waitRun id rest
      | .invoke arg => .broke arg rest
      | .panicOOB => .panicked

/-- A signal message whose triple is one of the two recognized kinds. -/
def recognizedTriple (m : SignalMessage) : Bool :=
  (tripleOf m = ("/org/freedesktop/Notifications", "org.freedesktop.Notifications",
                 "ActionInvoked")) ||
  (tripleOf m = ("/org/freedesktop/Notifications", "org.freedesktop.Notifications",
                 "NotificationClosed"))

/-- Well-typedness of a connection item as the signal emitter's contract
assumes it: any recognized-kind signal carries at least two items, the first
a `UInt32` id, the second a `Str` for `ActionInvoked` and a `UInt32` reason
for `NotificationClosed`. -/
def wellTypedItem : ConnectionItem → Bool
  | .other => true
  | .signal m =>
      if recognizedTriple m then
        match m.items with
        | .uint32 _ :: second :: _ =>
            if (tripleOf m).2.2 = "ActionInvoked" then
              match second with | .str _ => true | _ => false
            else
              match second with | .uint32 _ => true | _ => false
        | _ => false
      else true

/-- A connection item that is irrelevant to the wait on notification `id`,
in the claim's categories: not a signal, a signal of unrecognized kind, or a
recognized-kind signal whose first field is an id different from `id`. -/
def irrelevantTo (id : Nat) : ConnectionItem → Bool
  | .other => true
  | .signal m =>
      !recognizedTriple m ||
      (match m.items.get? 0 with
       | some (.uint32 nid) => nid ≠ id
       | _ => false)

/-- A recognized-kind signal addressed to notification `id`: first field is
`UInt32 id`. -/
def matchesId (id : Nat) (m : SignalMessage) : Bool :=
  recognizedTriple m &&
  (match m.items.get? 0 with
   | some (.uint32 nid) => nid = id
   | _ => false)

/-- The callback argument a matching well-typed signal produces: the action
string for `ActionInvoked`, the sentinel `"__closed"` for
`NotificationClosed`. -/
def payloadOf (m : SignalMessage) : String :=
  if (tripleOf m).2.2 = "ActionInvoked" then
    match m.items.get? 1 with
    | some (.str action) => action
    | _ => ""
  else "__closed"

/-- A recognized-kind signal with fewer than two items makes the loop body
panic. -/
def minLenOK : ConnectionItem → Bool
  | .other => true
  | .signal m => !recognizedTriple m || decide (2 ≤ m.items.length)

/-- Rust `OsStr` as far as `exe_name` inspects it: `to_str()` yields the UTF-8
string, or `None` when the name is not valid UTF-8. -/
structure OsStrVal where
  asUtf8 : Option String
  deriving Repr

/-- A `PathBuf` as far as `exe_name` inspects it: `file_name()` yields the
final component, or `None` when there is none. -/
structure ExePathVal where
  fileName : Option OsStrVal
  deriving Repr

/-- The process environment `exe_name` consults: `env::current_exe()` yields
the executable's path, or fails. -/
structure ExeEnv where
  currentExe : Option ExePathVal
  deriving Repr

/-- Rust `exe_name` (src/notification.rs lines 23-26):
`env::current_exe().unwrap().file_name().unwrap().to_str().unwrap().to_owned()`
— three consecutive unwraps, each of which panics when its stage is
unavailable. -/
def exe_name (env : ExeEnv) : Except RustPanic String :=
  match env.currentExe with
  | none => .error .panic
  | some p =>
      match p.fileName with
      | none => .error .panic
      | some o =>
          match o.asUtf8 with
          | none => .error .panic
          | some s => .ok s

/-- Rust `Default for Notification` (src/notification.rs lines 421-433, linux
configuration): appname from `exe_name`, everything else empty/default. -/
def Notification.defaultOf (env : ExeEnv) : Except RustPanic Notification :=
  match exe_name env with
  | .error e => .error e
  | .ok app => .ok (Notification.defaultWith app)

/-- Rust `Notification::new` (src/notification.rs lines 72-74): just
`Notification::default()`. -/
def Notification.new (env : ExeEnv) : Except RustPanic Notification :=
  Notification.defaultOf env

/-- Spec-side expectation, written from the spec's words for comparison with
`get_server_information`: each of the four positional reply fields is the
string at that position when present, and the empty string when the item is
absent or of any non-string type. -/
def specPositionalString (items : List MessageItem) (k : Nat) : String :=
  match items.get? k with
  | some (MessageItem.str s) => s
  | _ => ""

/-! ## Theorems -/

theorem itemStep_cont_of_irrelevant (N : Nat) (it : ConnectionItem)
    (hwt : wellTypedItem it = true) (hir : irrelevantTo N it = true) :
    itemStep N it = StepResult.cont := by
  cases it with
  | other => rfl
  | signal m =>
    simp only [itemStep]
    by_cases h1 : tripleOf m = ("/org/freedesktop/Notifications",
        "org.freedesktop.Notifications", "ActionInvoked")
    · have hrec : recognizedTriple m = true := by
        simp [recognizedTriple, h1]
      have hmem : (tripleOf m).2.2 = "ActionInvoked" := by rw [h1]
      simp only [wellTypedItem, hrec, if_true, hmem] at hwt
      simp only [irrelevantTo, hrec, Bool.not_true, Bool.false_or] at hir
      unfold signalStep
      rw [if_pos h1]
      rcases hitems : m.items with _ | ⟨a, tl⟩
      · rw [hitems] at hwt; simp at hwt
      · rcases tl with _ | ⟨b, rest⟩
        · rw [hitems] at hwt; cases a <;> simp at hwt
        · rw [hitems] at hwt hir
          cases a <;> cases b <;> simp_all
    · by_cases h2 : tripleOf m = ("/org/freedesktop/Notifications",
          "org.freedesktop.Notifications", "NotificationClosed")
      · have hrec : recognizedTriple m = true := by
          simp [recognizedTriple, h2]
        have hmem : (tripleOf m).2.2 = "NotificationClosed" := by rw [h2]
        simp only [wellTypedItem, hrec, if_true, hmem] at hwt
        simp only [irrelevantTo, hrec, Bool.not_true, Bool.false_or] at hir
        unfold signalStep
        rw [if_neg h1, if_pos h2]
        rcases hitems : m.items with _ | ⟨a, tl⟩
        · rw [hitems] at hwt; simp at hwt
        · rcases tl with _ | ⟨b, rest⟩
          · rw [hitems] at hwt; cases a <;> simp at hwt
          · rw [hitems] at hwt hir
            cases a <;> cases b <;> simp_all
      · unfold signalStep
        rw [if_neg h1, if_neg h2]

theorem itemStep_invoke_of_matches (N : Nat) (m : SignalMessage)
    (hwt : wellTypedItem (ConnectionItem.signal m) = true)
    (hm : matchesId N m = true) :
    itemStep N (ConnectionItem.signal m) = StepResult.invoke (payloadOf m) := by
  have hrec : recognizedTriple m = true := by
    simp only [matchesId, Bool.and_eq_true] at hm
    exact hm.1
  have hid : (match m.items.get? 0 with
      | some (MessageItem.uint32 nid) => decide (nid = N)
      | _ => false) = true := by
    simp only [matchesId, Bool.and_eq_true] at hm
    exact hm.2
  simp only [itemStep]
  by_cases h1 : tripleOf m = ("/org/freedesktop/Notifications",
      "org.freedesktop.Notifications", "ActionInvoked")
  · have hmem : (tripleOf m).2.2 = "ActionInvoked" := by rw [h1]
    simp only [wellTypedItem, hrec, if_true, hmem] at hwt
    unfold signalStep
    rw [if_pos h1]
    rcases hitems : m.items with _ | ⟨a, tl⟩
    · rw [hitems] at hwt; simp at hwt
    · rcases tl with _ | ⟨b, rest⟩
      · rw [hitems] at hwt; cases a <;> simp at hwt
      · rw [hitems] at hwt hid
        cases a <;> cases b <;> simp_all [payloadOf, hitems]
  · have h2 : tripleOf m = ("/org/freedesktop/Notifications",
        "org.freedesktop.Notifications", "NotificationClosed") := by
      simp only [recognizedTriple, Bool.or_eq_true, decide_eq_true_eq] at hrec
      exact hrec.resolve_left h1
    have hmem : (tripleOf m).2.2 = "NotificationClosed" := by rw [h2]
    have hne : (tripleOf m).2.2 ≠ "ActionInvoked" := by
      rw [hmem]; decide
    simp only [wellTypedItem, hrec, if_true, hmem] at hwt
    unfold signalStep
    rw [if_neg h1, if_pos h2]
    rcases hitems : m.items with _ | ⟨a, tl⟩
    · rw [hitems] at hwt; simp at hwt
    · rcases tl with _ | ⟨b, rest⟩
      · rw [hitems] at hwt; cases a <;> simp at hwt
      · rw [hitems] at hwt hid
        cases a <;> cases b <;> simp_all [payloadOf, hitems]

theorem signalStep_panic_of_short (N : Nat) (m : SignalMessage)
    (hrec : recognizedTriple m = true) (hlen : m.items.length < 2) :
    signalStep N m = StepResult.panicOOB := by
  simp only [recognizedTriple, Bool.or_eq_true, decide_eq_true_eq] at hrec
  unfold signalStep
  rcases hrec with h1 | h2
  · rw [if_pos h1]
    rcases hitems : m.items with _ | ⟨a, tl⟩
    · rfl
    · rcases tl with _ | ⟨b, rest⟩
      · cases a <;> rfl
      · rw [hitems] at hlen; simp at hlen; omega
  · have h1 : ¬(tripleOf m = ("/org/freedesktop/Notifications",
        "org.freedesktop.Notifications", "ActionInvoked")) := by
      rw [h2]; decide
    rw [if_neg h1, if_pos h2]
    rcases hitems : m.items with _ | ⟨a, tl⟩
    · rfl
    · rcases tl with _ | ⟨b, rest⟩
      · cases a <;> rfl
      · rw [hitems] at hlen; simp at hlen; omega

theorem itemStep_ne_panic_of_minLenOK (N : Nat) (it : ConnectionItem)
    (h : minLenOK it = true) : itemStep N it ≠ StepResult.panicOOB := by
  cases it with
  | other => simp [itemStep]
  | signal m =>
    simp only [itemStep]
    simp only [minLenOK, Bool.or_eq_true, Bool.not_eq_true',
      decide_eq_true_eq] at h
    by_cases h1 : tripleOf m = ("/org/freedesktop/Notifications",
        "org.freedesktop.Notifications", "ActionInvoked")
    · have hrec : recognizedTriple m = true := by simp [recognizedTriple, h1]
      have hlen : 2 ≤ m.items.length := by
        rcases h with h | h
        · rw [hrec] at h; cases h
        · exact h
      unfold signalStep
      rw [if_pos h1]
      rcases hitems : m.items with _ | ⟨a, tl⟩
      · rw [hitems] at hlen; simp at hlen
      · rcases tl with _ | ⟨b, rest⟩
        · rw [hitems] at hlen; simp at hlen
        · cases a <;> cases b <;> simp only [] <;> (try split) <;> simp
    · by_cases h2 : tripleOf m = ("/org/freedesktop/Notifications",
          "org.freedesktop.Notifications", "NotificationClosed")
      · have hrec : recognizedTriple m = true := by simp [recognizedTriple, h2]
        have hlen : 2 ≤ m.items.length := by
          rcases h with h | h
          · rw [hrec] at h; cases h
          · exact h
        unfold signalStep
        rw [if_neg h1, if_pos h2]
        rcases hitems : m.items with _ | ⟨a, tl⟩
        · rw [hitems] at hlen; simp at hlen
        · rcases tl with _ | ⟨b, rest⟩
          · rw [hitems] at hlen; simp at hlen
          · cases a <;> cases b <;> simp only [] <;> (try split) <;> simp
      · unfold signalStep
        rw [if_neg h1, if_neg h2]
        simp

/-- C2: running the signal-wait loop for notification id `N` over a stream of
connection items in which every recognized-kind signal is well-typed: the
items before the first recognized-kind signal whose first field is `N` — non-
signals, unrecognized triples, recognized signals for other ids — cause no
callback invocation and the loop continues past them; at that first matching
signal the callback is invoked exactly once, with the action string for
`ActionInvoked` or the sentinel `"__closed"` for `NotificationClosed`, and
the loop then terminates with the remaining items unconsumed. -/
theorem wait_loop_invokes_once_on_first_match (N : Nat)
    (l1 l2 : List ConnectionItem) (m : SignalMessage)
    (hwt1 : l1.all wellTypedItem = true)
    (hwtm : wellTypedItem (ConnectionItem.signal m) = true)
    (hir : l1.all (irrelevantTo N) = true)
    (hm : matchesId N m = true) :
    waitRun N (l1 ++ ConnectionItem.signal m :: l2)
      = RunResult.broke (payloadOf m) l2 := by
  induction l1 with
  | nil =>
    simp only [List.nil_append, waitRun,
      itemStep_invoke_of_matches N m hwtm hm]
  | cons it tl ih =>
    simp only [List.all_cons, Bool.and_eq_true] at hwt1 hir
    simp only [List.cons_append, waitRun,
      itemStep_cont_of_irrelevant N it hwt1.1 hir.1]
    exact ih hwt1.2 hir.2

/-- C2 witness: the spec's scenario — waiting on id 7, an unrelated
`ActionInvoked(3, "ignore")` fires no callback, then `ActionInvoked(7,
"open")` invokes the callback once with `"open"` and the loop terminates. -/
theorem wait_loop_invokes_once_on_first_match_witness :
    waitRun 7
      ([ConnectionItem.signal
          { path := some "/org/freedesktop/Notifications",
            interface := some "org.freedesktop.Notifications",
            member := some "ActionInvoked",
            items := [MessageItem.uint32 3, MessageItem.str "ignore"] }] ++
        ConnectionItem.signal
          { path := some "/org/freedesktop/Notifications",
            interface := some "org.freedesktop.Notifications",
            member := some "ActionInvoked",
            items := [MessageItem.uint32 7, MessageItem.str "open"] } :: [])
      = RunResult.broke
          (payloadOf
            { path := some "/org/freedesktop/Notifications",
              interface := some "org.freedesktop.Notifications",
              member := some "ActionInvoked",
              items := [MessageItem.uint32 7, MessageItem.str "open"] }) [] :=
  wait_loop_invokes_once_on_first_match 7 _ _ _
    (by decide) (by decide) (by decide) (by decide)

/-- C8: `wait_for_action_signal` is panic-free only when every recognized-kind
signal carries at least two message items: a recognized-kind signal with
fewer than two items makes the loop panic (out-of-bounds indexing) instead of
being discarded, while under the precondition the loop never panics. -/
theorem wait_loop_panic_iff_short_recognized_signal (N : Nat)
    (m : SignalMessage) (l : List ConnectionItem)
    (hrec : recognizedTriple m = true) (hlen : m.items.length < 2) :
    waitRun N (ConnectionItem.signal m :: l) = RunResult.panicked ∧
    ∀ l' : List ConnectionItem, l'.all minLenOK = true →
      waitRun N l' ≠ RunResult.panicked := by
  constructor
  · simp only [waitRun, itemStep, signalStep_panic_of_short N m hrec hlen]
  · intro l' h
    induction l' with
    | nil => simp [waitRun]
    | cons it tl ih =>
      simp only [List.all_cons, Bool.and_eq_true] at h
      have hne := itemStep_ne_panic_of_minLenOK N it h.1
      simp only [waitRun]
      cases hstep : itemStep N it with
      | cont => simpa [hstep] using ih h.2
      | invoke arg => simp [hstep]
      | panicOOB => exact absurd hstep hne

/-- C8 witness: an `ActionInvoked`-triple signal carrying a single item
panics the loop for id 7. -/
theorem wait_loop_panic_iff_short_recognized_signal_witness :
    waitRun 7
      [ConnectionItem.signal
        { path := some "/org/freedesktop/Notifications",
          interface := some "org.freedesktop.Notifications",
          member := some "ActionInvoked",
          items := [MessageItem.uint32 7] }]
      = RunResult.panicked :=
  (wait_loop_panic_iff_short_recognized_signal 7
    { path := some "/org/freedesktop/Notifications",
      interface := some "org.freedesktop.Notifications",
      member := some "ActionInvoked",
      items := [MessageItem.uint32 7] } []
    (by decide) (by decide)).1

/-- C9: the loop matches only the hard-coded production triple: a signal
arriving on the debug object path and interface (the `debug_namespace`
configuration of `NOTIFICATION_OBJECTPATH`/`NOTIFICATION_NAMESPACE`) never
invokes the callback, for every id, member and item list — while a signal on
the production constants' path and interface with a matching id does. -/
theorem debug_namespace_signal_never_invokes (N : Nat)
    (member : Option String) (items : List MessageItem) (action : String) :
    itemStep N (ConnectionItem.signal
      { path := some (NOTIFICATION_OBJECTPATH true),
        interface := some (NOTIFICATION_NAMESPACE true),
        member := member, items := items }) = StepResult.cont ∧
    itemStep N (ConnectionItem.signal
      { path := some (NOTIFICATION_OBJECTPATH false),
        interface := some (NOTIFICATION_NAMESPACE false),
        member := some "ActionInvoked",
        items := [MessageItem.uint32 N, MessageItem.str action] })
      = StepResult.invoke action := by
  constructor
  · have hpath : ("/de/hoodie/Notifications" : String)
        ≠ "/org/freedesktop/Notifications" := by decide
    simp only [itemStep]
    unfold signalStep
    rw [if_neg (fun h => hpath (congrArg Prod.fst h)),
      if_neg (fun h => hpath (congrArg Prod.fst h))]
  · simp [itemStep, signalStep, tripleOf, NOTIFICATION_OBJECTPATH,
      NOTIFICATION_NAMESPACE]

/-- C1 counterexample: inserting `Urgency(Low)` and then `Urgency(Critical)`
into a fresh notification's hint set leaves the set holding `Urgency(Low)` —
the payload of the *first* insertion, not of the latest one — because Rust's
`HashSet::insert` does not replace an element that is already present. -/
theorem hint_latest_wins_counterexample :
    (((Notification.defaultWith "app").hint (Hint.urgency Urgency.low)).hint
        (Hint.urgency Urgency.critical)).hints = [Hint.urgency Urgency.low] ∧
    Hint.urgency Urgency.low ≠ Hint.urgency Urgency.critical := by
  decide

/-- C1 (amended): for every notification with no prior hint of the shared
variant tag, calling `hint(h1)` and then `hint(h2)` with `h1` and `h2` of the
same variant tag leaves exactly one hint of that variant in the set — but its
payload is that of `h1`: the earliest insertion wins, and the later same-tag
insertion is a no-op. -/
theorem hint_same_tag_first_insertion_wins (n : Notification) (h1 h2 : Hint)
    (htag : h1.tag = h2.tag)
    (hfresh : ∀ g ∈ n.hints, g.tag ≠ h1.tag) :
    ((n.hint h1).hint h2).hints.filter (fun g => g.tag == h1.tag) = [h1] := by
  have ha1 : (n.hints.any fun g => decide (g.tag = h1.tag)) = false := by
    rw [List.any_eq_false]
    intro g hg
    simpa using hfresh g hg
  have step1 : (n.hint h1).hints = n.hints ++ [h1] := by
    have e : (n.hint h1).hints = hashSetInsert n.hints h1 := rfl
    rw [e]
    unfold hashSetInsert
    rw [ha1]
    simp
  have ha2 : ((n.hints ++ [h1]).any fun g => decide (g.tag = h2.tag)) = true := by
    simp [List.any_append, htag]
  have step2 : ((n.hint h1).hint h2).hints = n.hints ++ [h1] := by
    have e : ((n.hint h1).hint h2).hints = hashSetInsert (n.hint h1).hints h2 := rfl
    rw [e, step1]
    unfold hashSetInsert
    rw [ha2]
    simp
  rw [step2, List.filter_append]
  have hnil : n.hints.filter (fun g => g.tag == h1.tag) = [] := by
    rw [List.filter_eq_nil_iff]
    intro g hg
    simpa using hfresh g hg
  simp [hnil, List.filter]

/-- C1 witness: the amended statement at the counterexample's input — after
`Urgency(Low)` then `Urgency(Critical)`, the urgency-tagged hints are exactly
`[Urgency(Low)]`. -/
theorem hint_same_tag_first_insertion_wins_witness :
    (((Notification.defaultWith "app").hint (Hint.urgency Urgency.low)).hint
        (Hint.urgency Urgency.critical)).hints.filter
          (fun g => g.tag == (Hint.urgency Urgency.low).tag)
      = [Hint.urgency Urgency.low] :=
  hint_same_tag_first_insertion_wins (Notification.defaultWith "app")
    (Hint.urgency Urgency.low) (Hint.urgency Urgency.critical) (by decide)
    (by intro g hg; simp [Notification.defaultWith] at hg)

/-- C3 counterexample: when the re-send inside `update()` fails with a
transport error, `update()` does not return normally — the `unwrap` panics,
aborting the caller. -/
theorem update_transport_error_counterexample :
    (NotificationHandle.new 1 (Notification.defaultWith "app")).update
        CallOutcome.sendError = Except.error RustPanic.panic ∧
    ∀ h' : NotificationHandle,
      (NotificationHandle.new 1 (Notification.defaultWith "app")).update
          CallOutcome.sendError ≠ Except.ok h' := by
  refine ⟨rfl, fun h' hcon => ?_⟩
  simp [NotificationHandle.update, Notification.showCall] at hcon

/-- C3 (amended): for every handle, a transport error during `update()`'s
re-send is `unwrap`ped into a panic that aborts the caller — the error is
never propagated as a return value — while on any reply `update()` returns
normally with the stored id replaced by the reply's parsed id. -/
theorem update_panics_on_transport_error (h : NotificationHandle) :
    h.update CallOutcome.sendError = Except.error RustPanic.panic ∧
    ∀ items : List MessageItem,
      h.update (CallOutcome.reply items)
        = Except.ok { h with id := parseNotifyReply items } :=
  ⟨rfl, fun _ => rfl⟩

/-- C4: showing a notification whose only non-default field is
`summary = "Hi"` builds the `Notify` argument list
`(appname, 0, "", "Hi", "", [], a{sv}-empty, -1)` in that order, and a reply
carrying id 7 yields a handle whose `id()` returns 7. -/
theorem show_summary_hi_scenario (app : String) :
    ((Notification.defaultWith app).setSummary "Hi").notifyArgs
        (((Notification.defaultWith app).setSummary "Hi").id.getD 0)
      = [MessageItem.str app, MessageItem.uint32 0, MessageItem.str "",
         MessageItem.str "Hi", MessageItem.str "",
         MessageItem.array "as" [], MessageItem.array "a{sv}" [],
         MessageItem.int32 (-1)] ∧
    ((Notification.defaultWith app).setSummary "Hi").show
        (CallOutcome.reply [MessageItem.uint32 7])
      = Except.ok (NotificationHandle.new 7
          ((Notification.defaultWith app).setSummary "Hi")) ∧
    (NotificationHandle.new 7
        ((Notification.defaultWith app).setSummary "Hi")).getId = 7 := by
  refine ⟨?_, rfl, rfl⟩
  simp [Notification.notifyArgs, Notification.pack_actions,
    Notification.pack_hints, Notification.defaultWith, Notification.setSummary,
    Timeout.toI32]

/-- C5: a `Notify` reply whose first item is not a `UInt32` (or an empty
reply) parses to id 0 as a success value; every reply shape succeeds, and
only a connection-level failure produces an error. -/
theorem notify_reply_unexpected_shape_yields_zero (n : Notification)
    (id : Nat) (items : List MessageItem)
    (hshape : ∀ k : Nat, items.get? 0 ≠ some (MessageItem.uint32 k)) :
    n.showCall id (CallOutcome.reply items) = Except.ok 0 ∧
    (∀ items' : List MessageItem, ∃ v : Nat,
      n.showCall id (CallOutcome.reply items') = Except.ok v) ∧
    n.showCall id CallOutcome.sendError = Except.error DbusError.dbus := by
  refine ⟨?_, fun items' => ⟨parseNotifyReply items', rfl⟩, rfl⟩
  have hz : parseNotifyReply items = 0 := by
    unfold parseNotifyReply
    rcases hi : items.get? 0 with _ | mi
    · rfl
    · cases mi <;> first | rfl | exact absurd hi (hshape _)
  show Except.ok (parseNotifyReply items) = Except.ok 0
  rw [hz]

/-- C5 witness: an empty reply parses to id 0 without error. -/
theorem notify_reply_unexpected_shape_yields_zero_witness :
    (Notification.defaultWith "app").showCall 0 (CallOutcome.reply [])
      = Except.ok 0 :=
  (notify_reply_unexpected_shape_yields_zero (Notification.defaultWith "app")
    0 [] (fun k => by simp)).1

/-- C6: the handle's stored id is always the most recently acknowledged one —
from the initial `Notify` reply at construction via `show`, and from the
update's reply after every successful `update()` (even if the service
reassigned a different id) — and `id()` returns exactly this stored value. -/
theorem handle_id_is_latest_acknowledged (n : Notification)
    (items items' : List MessageItem) (h h' : NotificationHandle)
    (hshow : n.show (CallOutcome.reply items) = Except.ok h)
    (hupd : h.update (CallOutcome.reply items') = Except.ok h') :
    h.id = parseNotifyReply items ∧ h'.id = parseNotifyReply items' ∧
    h.getId = h.id ∧ h'.getId = h'.id := by
  simp only [Notification.show, Notification.showCall, Except.ok.injEq]
    at hshow
  subst hshow
  simp only [NotificationHandle.update, Notification.showCall,
    Except.ok.injEq] at hupd
  subst hupd
  exact ⟨rfl, rfl, rfl, rfl⟩

/-- C6 witness: a reply id 7 at construction, then an update whose reply
carries id 9, leave the handle holding 7 and then 9 respectively. -/
theorem handle_id_is_latest_acknowledged_witness :
    (NotificationHandle.new 7 (Notification.defaultWith "app")).id
      = parseNotifyReply [MessageItem.uint32 7] ∧
    (NotificationHandle.new 9 (Notification.defaultWith "app")).id
      = parseNotifyReply [MessageItem.uint32 9] ∧
    (NotificationHandle.new 7 (Notification.defaultWith "app")).getId
      = (NotificationHandle.new 7 (Notification.defaultWith "app")).id ∧
    (NotificationHandle.new 9 (Notification.defaultWith "app")).getId
      = (NotificationHandle.new 9 (Notification.defaultWith "app")).id :=
  handle_id_is_latest_acknowledged (Notification.defaultWith "app")
    [MessageItem.uint32 7] [MessageItem.uint32 9]
    (NotificationHandle.new 7 (Notification.defaultWith "app"))
    (NotificationHandle.new 9 (Notification.defaultWith "app"))
    rfl rfl

/-- C7: `get_server_information` decodes the four positional reply fields
independently — each becomes the string at its position when present, and the
empty string when absent or of a non-string type — and no reply shape ever
yields an error; only a connection-level failure does. -/
theorem server_information_positional_decode (items : List MessageItem) :
    get_server_information (CallOutcome.reply items)
      = Except.ok { name := specPositionalString items 0,
                    vendor := specPositionalString items 1,
                    version := specPositionalString items 2,
                    spec_version := specPositionalString items 3 } ∧
    get_server_information CallOutcome.sendError
      = Except.error DbusError.dbus :=
  ⟨rfl, rfl⟩

/-- C10: `Notification::new()` unwraps, in turn, the current executable path,
its file-name component, and its UTF-8 conversion — panicking when any stage
is unavailable — and when all succeed it yields the notification with
`appname` set to the executable name, summary/body/icon empty, no hints, no
actions, timeout `Default`, and no id. -/
theorem new_unwraps_exe_name_stages (s : String) :
    Notification.new { currentExe := some { fileName := some { asUtf8 := some s } } }
      = Except.ok { appname := s, summary := "", subtitle := none, body := "",
                    icon := "", hints := [], actions := [],
                    timeout := Timeout.default, id := none } ∧
    Notification.new { currentExe := none } = Except.error RustPanic.panic ∧
    Notification.new { currentExe := some { fileName := none } }
      = Except.error RustPanic.panic ∧
    Notification.new { currentExe := some { fileName := some { asUtf8 := none } } }
      = Except.error RustPanic.panic :=
  ⟨rfl, rfl, rfl, rfl⟩

end NotifyRs
